import Mathlib

/-!
Verification of the GCS-CSV-to-BigQuery cloud function
(src/cloud_function_source/main.py, function process_gcs_csv_to_bq).

The pandas pipeline is shallowly embedded: a parsed CSV table (`RawTable`)
is a header plus rows of optional string cells (`none` models a pandas
`NaN` arising from a missing/empty cell); the per-row transformation is a
pure Lean function; the clock readings taken during an invocation
(`datetime.now(timezone.utc)` for the timestamp fill, `datetime.utcnow()`
for `processing_datetime`) are explicit integer parameters; the external
parsers (`pd.to_datetime`, `pd.to_numeric`) are function parameters, since
their internals live in pandas, not this repository.  Timestamps are
modelled as an epoch instant together with a timezone-awareness flag.
Python string methods `.upper()`, `.lower()` and `.endswith(...)` are
embedded as character-list operations.
-/

/-- Python `s.upper()`: uppercase every character. -/
def str_upper (s : String) : String := String.mk (s.data.map Char.toUpper)

/-- Python `s.lower()`: lowercase every character. -/
def str_lower (s : String) : String := String.mk (s.data.map Char.toLower)

/-- Python `s.endswith(sfx)`. -/
def str_ends_with (s sfx : String) : Bool := List.isSuffixOf sfx.data s.data

/-- A value in an output (BigQuery-bound) cell.  The constructor
`vts e aware` is a timestamp at epoch instant `e`; `aware = true` means
timezone-aware UTC, `aware = false` means naive.  `na` models a pandas
`NaN` / missing value. -/
inductive BQValue where
  | vstr (s : String)
  | vnum (q : ℚ)
  | vbool (b : Bool)
  | vts (epoch : ℤ) (aware : Bool)
  | na
deriving DecidableEq, Repr

/-- An output row: ordered association list from column name to value,
mirroring a row of the pandas DataFrame after the final projection. -/
abbrev OutRow := List (String × BQValue)

/-- The parsed CSV content (result of pd.read_csv): a header naming the
columns, and rows of cells aligned with the header.  `none` is a `NaN`
cell. -/
structure RawTable where
  header : List String
  rows : List (List (Option String))
deriving DecidableEq, Repr

/-- Cell access `df[col]` for one row: the cell at the index of the column
in the header (a column absent from the header is a table-level
`KeyError`, checked separately by `transform`). -/
def cellVal (hdr : List String) (row : List (Option String)) (col : String) :
    Option String :=
  row.getD (hdr.indexOf col) none

/-- Pandas `astype(str)` on a cell: `NaN` is rendered as the string
`"nan"`. -/
def astype_str : Option String → String
  | none => "nan"
  | some s => s

/-- The fixed country lookup table from the source (`country_mapping`). -/
def country_mapping : List (String × String) :=
  [("MALAYSIA", "MY"), ("SINGAPORE", "SG"), ("THAILAND", "TH"), ("INDONESIA", "ID")]

/-- Step (b) of the source for one cell:
`df.country.astype(str).str.upper().map(country_mapping).fillna(OT)`. -/
def coerceCountry (c : Option String) : String :=
  (country_mapping.lookup (str_upper (astype_str c))).getD "OT"

/-- Step (c) value coercion for one cell:
`pd.to_numeric(df.value, errors=coerce).fillna(0.0)` where `pnum` models
`pd.to_numeric` on one string, `none` meaning unparseable. -/
def coerceValue (pnum : String → Option ℚ) (c : Option String) : ℚ :=
  match c with
  | none => 0
  | some s => (pnum s).getD 0

/-- Step (a) timestamp coercion for one cell:
`pd.to_datetime(df.event_timestamp, errors=coerce, utc=True)` followed by
`.fillna(current_utc_for_fill)`, where `pts` models parsing one string to
a UTC epoch instant, `none` meaning unparseable (`NaT`). -/
def coerceTimestamp (pts : String → Option ℤ) (nowFill : ℤ) (c : Option String) : ℤ :=
  match c with
  | none => nowFill
  | some s => (pts s).getD nowFill

/-- The six target columns, in the order of the final projection (step e)
of the source. -/
def targetColumns : List String :=
  ["user_id", "event_timestamp", "country_code", "value",
   "is_high_value", "processing_datetime"]

/-- The per-row transformation of steps (a)-(e) of the source: timestamp
coercion and fill, country coding, value coercion, high-value flag,
constant processing timestamp, and projection to the six target columns.
`nowFill` is the `datetime.now(timezone.utc)` reading (aware UTC),
`nowNaive` the `datetime.utcnow()` reading (naive). -/
def transformRow (hdr : List String) (pts : String → Option ℤ)
    (pnum : String → Option ℚ) (nowFill nowNaive : ℤ)
    (row : List (Option String)) : OutRow :=
  [("user_id",
     match cellVal hdr row "user_id" with
     | none => BQValue.na
     | some s => BQValue.vstr s),
   ("event_timestamp",
     BQValue.vts (coerceTimestamp pts nowFill (cellVal hdr row "event_timestamp")) true),
   ("country_code", BQValue.vstr (coerceCountry (cellVal hdr row "country"))),
   ("value", BQValue.vnum (coerceValue pnum (cellVal hdr row "value"))),
   ("is_high_value",
     BQValue.vbool (decide (100 < coerceValue pnum (cellVal hdr row "value")))),
   ("processing_datetime", BQValue.vts nowNaive false)]

/-- The transform step of `process_gcs_csv_to_bq`: accessing a column
absent from the DataFrame raises a `KeyError`, caught and re-raised by the
surrounding `try` (the TransformError of the spec); otherwise every row is
transformed independently by `transformRow`. -/
def transform (t : RawTable) (pts : String → Option ℤ)
    (pnum : String → Option ℚ) (nowFill nowNaive : ℤ) :
    Except Unit (List OutRow) :=
  if t.header.contains "user_id" && t.header.contains "event_timestamp"
      && t.header.contains "country" && t.header.contains "value" then
    Except.ok (t.rows.map (transformRow t.header pts pnum nowFill nowNaive))
  else
    Except.error ()

/-- BigQuery write dispositions used by the LoadJobConfig of the source. -/
inductive WriteDisposition where
  | WRITE_APPEND
  | WRITE_TRUNCATE
deriving DecidableEq, Repr

/-- The load job configuration built in the source:
`bigquery.LoadJobConfig(write_disposition=WriteDisposition.WRITE_APPEND)`. -/
def job_config : WriteDisposition := WriteDisposition.WRITE_APPEND

/-- Warehouse load semantics per the BigQuery documentation quoted in the
source comments: `WRITE_APPEND` adds new rows to the table,
`WRITE_TRUNCATE` would delete all existing rows before loading. -/
def bqLoad (disposition : WriteDisposition) (table rows : List OutRow) :
    List OutRow :=
  match disposition with
  | WriteDisposition.WRITE_APPEND => table ++ rows
  | WriteDisposition.WRITE_TRUNCATE => rows

/-- The call `bigquery_client.load_table_from_dataframe(final_df,
table_id_full, job_config=job_config)` followed by `job.result()`: the
invocation resumes only once the load has completed, so the function
returns the new state of the warehouse table. -/
def load_table_from_dataframe (table rows : List OutRow) : List OutRow :=
  bqLoad job_config table rows

/-- The trigger event payload (`cloud_event.data`): `bucket` and `name`. -/
structure Event where
  bucket : String
  name : String
deriving DecidableEq, Repr

/-- The error taxonomy reachable in the embedded invocation. -/
inductive FnError where
  | validationError
  | notFoundError
  | parseError
  | transformError
deriving DecidableEq, Repr

/-- How one invocation ends: early return on non-CSV, success with the
output row count of the load job, or a raised error. -/
inductive Outcome where
  | skipped
  | success (outputRows : ℕ)
  | failure (e : FnError)
deriving DecidableEq, Repr

/-- Externally visible actions an invocation performs, in order. -/
inductive FnAction where
  | fetch
  | transformStep
  | load
deriving DecidableEq, Repr

/-- Result of one invocation: the outcome, the warehouse table after the
invocation, and the actions performed. -/
structure InvocationResult where
  outcome : Outcome
  table : List OutRow
  actions : List FnAction
deriving DecidableEq, Repr

/-- The full control flow of `process_gcs_csv_to_bq`, in source order:
extension filter first (`if not file_name.lower().endswith(...): return`),
then the emptiness check (`if not bucket_name or not file_name: raise
ValueError`), then existence check and download, then parse, transform,
and the append load.  `store` models the object store (`none` = object
absent), `parseCsv` models pd.read_csv on the downloaded text. -/
def process_gcs_csv_to_bq (store : String → String → Option String)
    (parseCsv : String → Except Unit RawTable)
    (pts : String → Option ℤ) (pnum : String → Option ℚ)
    (nowFill nowNaive : ℤ) (warehouse : List OutRow) (ev : Event) :
    InvocationResult :=
  if str_ends_with (str_lower ev.name) ".csv" = false then
    ⟨Outcome.skipped, warehouse, []⟩
  else if ev.bucket = "" ∨ ev.name = "" then
    ⟨Outcome.failure FnError.validationError, warehouse, []⟩
  else
    match store ev.bucket ev.name with
    | none => ⟨Outcome.failure FnError.notFoundError, warehouse, [FnAction.fetch]⟩
    | some content =>
      match parseCsv content with
      | Except.error _ =>
          ⟨Outcome.failure FnError.parseError, warehouse, [FnAction.fetch]⟩
      | Except.ok raw =>
        match transform raw pts pnum nowFill nowNaive with
        | Except.error _ =>
            ⟨Outcome.failure FnError.transformError, warehouse,
             [FnAction.fetch, FnAction.transformStep]⟩
        | Except.ok rows =>
            ⟨Outcome.success rows.length, load_table_from_dataframe warehouse rows,
             [FnAction.fetch, FnAction.transformStep, FnAction.load]⟩

/-! Concrete fixtures used by witnesses and counterexamples. -/

/-- A timestamp parser that parses nothing (every input is garbage). -/
def pts0 : String → Option ℤ := fun _ => none

/-- A numeric parser that parses nothing. -/
def pnum0 : String → Option ℚ := fun _ => none

/-- A numeric parser that parses exactly the string "150" to 150. -/
def pnum150 : String → Option ℚ := fun s => if s = "150" then some 150 else none

/-- The expected CSV header. -/
def hdr0 : List String := ["user_id", "event_timestamp", "country", "value"]

/-- A row with an unparseable timestamp and a parseable high value. -/
def row150 : List (Option String) := [some "u1", some "not-a-date", some "malaysia", some "150"]

/-- A one-row table around `row150`. -/
def t150 : RawTable := ⟨hdr0, [row150]⟩

/-- A row whose raw country value is the string "OT". -/
def rowOT : List (Option String) := [some "u9", some "2024-01-01", some "OT", some "5"]

/-- A one-row table around `rowOT`. -/
def tOT : RawTable := ⟨hdr0, [rowOT]⟩

/-- A row whose user_id cell is missing (empty CSV field, pandas NaN). -/
def rowNoUid : List (Option String) := [none, some "2024-01-01", some "Malaysia", some "150"]

/-- A one-row table around `rowNoUid`. -/
def tNoUid : RawTable := ⟨hdr0, [rowNoUid]⟩

/-- An object store holding nothing. -/
def store0 : String → String → Option String := fun _ _ => none

/-- A CSV parser model that rejects everything. -/
def parseCsv0 : String → Except Unit RawTable := fun _ => Except.error ()

/-! Helper lemmas. -/

/-- Value coercion is parse-with-default: missing and unparseable cells
both coerce to 0. -/
lemma coerceValue_eq_bind (pnum : String → Option ℚ) (c : Option String) :
    coerceValue pnum c = ((c.bind pnum).getD 0) := by
  cases c <;> rfl

/-- Timestamp coercion is parse-with-fill: missing and unparseable cells
both coerce to the fill reading. -/
lemma coerceTimestamp_eq_bind (pts : String → Option ℤ) (nowFill : ℤ)
    (c : Option String) :
    coerceTimestamp pts nowFill c = ((c.bind pts).getD nowFill) := by
  cases c <;> rfl

/-- A successful transform output is exactly the row-wise map. -/
lemma transform_ok_eq (t : RawTable) (pts : String → Option ℤ)
    (pnum : String → Option ℚ) (nowFill nowNaive : ℤ) (out : List OutRow)
    (htr : transform t pts pnum nowFill nowNaive = Except.ok out) :
    out = t.rows.map (transformRow t.header pts pnum nowFill nowNaive) := by
  unfold transform at htr
  split at htr
  · injection htr with h
    exact h.symm
  · exact absurd htr (by simp)

/-- The image of an input row belongs to a successful transform output. -/
lemma transform_mem_out (t : RawTable) (pts : String → Option ℤ)
    (pnum : String → Option ℚ) (nowFill nowNaive : ℤ) (out : List OutRow)
    (row : List (Option String))
    (htr : transform t pts pnum nowFill nowNaive = Except.ok out)
    (hrow : row ∈ t.rows) :
    transformRow t.header pts pnum nowFill nowNaive row ∈ out := by
  rw [transform_ok_eq t pts pnum nowFill nowNaive out htr]
  exact List.mem_map_of_mem _ hrow

/-- Field equation for the value column of a transformed row. -/
lemma transformRow_lookup_value (hdr : List String) (pts : String → Option ℤ)
    (pnum : String → Option ℚ) (nowFill nowNaive : ℤ)
    (row : List (Option String)) :
    List.lookup "value" (transformRow hdr pts pnum nowFill nowNaive row) =
      some (BQValue.vnum (coerceValue pnum (cellVal hdr row "value"))) := rfl

/-- Field equation for the is_high_value column of a transformed row. -/
lemma transformRow_lookup_high (hdr : List String) (pts : String → Option ℤ)
    (pnum : String → Option ℚ) (nowFill nowNaive : ℤ)
    (row : List (Option String)) :
    List.lookup "is_high_value" (transformRow hdr pts pnum nowFill nowNaive row) =
      some (BQValue.vbool (decide (100 < coerceValue pnum (cellVal hdr row "value")))) := rfl

/-- Field equation for the country_code column of a transformed row. -/
lemma transformRow_lookup_country (hdr : List String) (pts : String → Option ℤ)
    (pnum : String → Option ℚ) (nowFill nowNaive : ℤ)
    (row : List (Option String)) :
    List.lookup "country_code" (transformRow hdr pts pnum nowFill nowNaive row) =
      some (BQValue.vstr (coerceCountry (cellVal hdr row "country"))) := rfl

/-- Field equation for the event_timestamp column of a transformed row. -/
lemma transformRow_lookup_ts (hdr : List String) (pts : String → Option ℤ)
    (pnum : String → Option ℚ) (nowFill nowNaive : ℤ)
    (row : List (Option String)) :
    List.lookup "event_timestamp" (transformRow hdr pts pnum nowFill nowNaive row) =
      some (BQValue.vts (coerceTimestamp pts nowFill (cellVal hdr row "event_timestamp")) true) := rfl

/-- Field equation for the processing_datetime column of a transformed row. -/
lemma transformRow_lookup_processing (hdr : List String) (pts : String → Option ℤ)
    (pnum : String → Option ℚ) (nowFill nowNaive : ℤ)
    (row : List (Option String)) :
    List.lookup "processing_datetime" (transformRow hdr pts pnum nowFill nowNaive row) =
      some (BQValue.vts nowNaive false) := rfl

/-- Every hit in the country table is one of the four mapping pairs. -/
lemma lookup_country_cases (k v : String)
    (h : country_mapping.lookup k = some v) :
    (k = "MALAYSIA" ∧ v = "MY") ∨ (k = "SINGAPORE" ∧ v = "SG") ∨
    (k = "THAILAND" ∧ v = "TH") ∨ (k = "INDONESIA" ∧ v = "ID") := by
  simp only [country_mapping, List.lookup] at h
  repeat' split at h
  all_goals simp_all

/-- The coerced country code is one of the five admissible codes. -/
lemma coerceCountry_cases (c : Option String) :
    coerceCountry c = "MY" ∨ coerceCountry c = "SG" ∨ coerceCountry c = "TH" ∨
    coerceCountry c = "ID" ∨ coerceCountry c = "OT" := by
  unfold coerceCountry
  rcases h : country_mapping.lookup (str_upper (astype_str c)) with _ | v
  · simp
  · rcases lookup_country_cases _ _ h with ⟨_, rfl⟩ | ⟨_, rfl⟩ | ⟨_, rfl⟩ | ⟨_, rfl⟩ <;> simp

/-- If the coerced country code echoes the raw cell text, that text was
exactly "OT". -/
lemma coerceCountry_eq_raw (c : Option String)
    (h : coerceCountry c = astype_str c) : astype_str c = "OT" := by
  unfold coerceCountry at h
  rcases hl : country_mapping.lookup (str_upper (astype_str c)) with _ | v
  · rw [hl] at h
    exact h.symm
  · rw [hl] at h
    rcases lookup_country_cases _ _ hl with ⟨hk, rfl⟩ | ⟨hk, rfl⟩ | ⟨hk, rfl⟩ | ⟨hk, rfl⟩ <;>
      · rw [← h] at hk
        exact absurd hk (by decide)

/-! Claim theorems. -/

/-- C1: for every row of the output table, is_high_value is true iff the
coerced value is strictly greater than 100, where coercion parses the raw
value field and replaces unparseable or missing values with 0 (so a row
whose original value was unparseable has value 0 and is_high_value
false). -/
theorem high_value_flag_iff_coerced_value_gt_100 (t : RawTable)
    (pts : String → Option ℤ) (pnum : String → Option ℚ)
    (nowFill nowNaive : ℤ) (out : List OutRow) (row : List (Option String))
    (htr : transform t pts pnum nowFill nowNaive = Except.ok out)
    (hrow : row ∈ t.rows) :
    transformRow t.header pts pnum nowFill nowNaive row ∈ out ∧
    List.lookup "value" (transformRow t.header pts pnum nowFill nowNaive row) =
      some (BQValue.vnum (coerceValue pnum (cellVal t.header row "value"))) ∧
    List.lookup "is_high_value" (transformRow t.header pts pnum nowFill nowNaive row) =
      some (BQValue.vbool (decide (100 < coerceValue pnum (cellVal t.header row "value")))) ∧
    (List.lookup "is_high_value" (transformRow t.header pts pnum nowFill nowNaive row) =
      some (BQValue.vbool true) ↔ 100 < coerceValue pnum (cellVal t.header row "value")) ∧
    coerceValue pnum (cellVal t.header row "value") =
      ((cellVal t.header row "value").bind pnum).getD 0 := by
  refine ⟨transform_mem_out t pts pnum nowFill nowNaive out row htr hrow,
    transformRow_lookup_value t.header pts pnum nowFill nowNaive row,
    transformRow_lookup_high t.header pts pnum nowFill nowNaive row, ?_,
    coerceValue_eq_bind pnum (cellVal t.header row "value")⟩
  rw [transformRow_lookup_high t.header pts pnum nowFill nowNaive row]
  simp

/-- Witness for C1 at a concrete table: the value "150" parses to 150 and
the flag is set, and the statement evaluates as claimed. -/
theorem high_value_flag_iff_coerced_value_gt_100_witness :
    row150 ∈ t150.rows ∧
    (transformRow t150.header pts0 pnum150 0 0 row150 ∈
      [transformRow t150.header pts0 pnum150 0 0 row150] ∧
    List.lookup "value" (transformRow t150.header pts0 pnum150 0 0 row150) =
      some (BQValue.vnum (coerceValue pnum150 (cellVal t150.header row150 "value"))) ∧
    List.lookup "is_high_value" (transformRow t150.header pts0 pnum150 0 0 row150) =
      some (BQValue.vbool (decide (100 < coerceValue pnum150 (cellVal t150.header row150 "value")))) ∧
    (List.lookup "is_high_value" (transformRow t150.header pts0 pnum150 0 0 row150) =
      some (BQValue.vbool true) ↔ 100 < coerceValue pnum150 (cellVal t150.header row150 "value")) ∧
    coerceValue pnum150 (cellVal t150.header row150 "value") =
      ((cellVal t150.header row150 "value").bind pnum150).getD 0) :=
  ⟨by decide,
   high_value_flag_iff_coerced_value_gt_100 t150 pts0 pnum150 0 0
     [transformRow t150.header pts0 pnum150 0 0 row150] row150 rfl (by decide)⟩

/-- C2 counterexample: a row whose raw country value is the string "OT"
produces country_code "OT", which IS the raw input string, refuting the
claim that country_code is never the raw input string. -/
theorem country_code_echoes_raw_ot :
    transform tOT pts0 pnum0 0 0 =
      Except.ok [transformRow tOT.header pts0 pnum0 0 0 rowOT] ∧
    cellVal tOT.header rowOT "country" = some "OT" ∧
    List.lookup "country_code" (transformRow tOT.header pts0 pnum0 0 0 rowOT) =
      some (BQValue.vstr "OT") := ⟨rfl, rfl, rfl⟩

/-- C2 (amended): for every row of the output table, country_code is the
uppercased raw country value mapped through the fixed table with sentinel
"OT" for all other values, so it is always one of MY, SG, TH, ID, OT and
never empty; it can coincide with the raw input string only in the single
case where the raw country value is exactly "OT". -/
theorem country_code_fixed_set (t : RawTable)
    (pts : String → Option ℤ) (pnum : String → Option ℚ)
    (nowFill nowNaive : ℤ) (out : List OutRow) (row : List (Option String))
    (htr : transform t pts pnum nowFill nowNaive = Except.ok out)
    (hrow : row ∈ t.rows) :
    transformRow t.header pts pnum nowFill nowNaive row ∈ out ∧
    List.lookup "country_code" (transformRow t.header pts pnum nowFill nowNaive row) =
      some (BQValue.vstr (coerceCountry (cellVal t.header row "country"))) ∧
    (coerceCountry (cellVal t.header row "country") = "MY" ∨
     coerceCountry (cellVal t.header row "country") = "SG" ∨
     coerceCountry (cellVal t.header row "country") = "TH" ∨
     coerceCountry (cellVal t.header row "country") = "ID" ∨
     coerceCountry (cellVal t.header row "country") = "OT") ∧
    coerceCountry (cellVal t.header row "country") ≠ "" ∧
    (coerceCountry (cellVal t.header row "country") =
        astype_str (cellVal t.header row "country") →
      astype_str (cellVal t.header row "country") = "OT") := by
  refine ⟨transform_mem_out t pts pnum nowFill nowNaive out row htr hrow,
    transformRow_lookup_country t.header pts pnum nowFill nowNaive row,
    coerceCountry_cases (cellVal t.header row "country"), ?_,
    coerceCountry_eq_raw (cellVal t.header row "country")⟩
  rcases coerceCountry_cases (cellVal t.header row "country") with h | h | h | h | h <;>
    · rw [h]
      decide

/-- Witness for C2 at a concrete table: "malaysia" maps to "MY". -/
theorem country_code_fixed_set_witness :
    row150 ∈ t150.rows ∧
    (transformRow t150.header pts0 pnum150 0 0 row150 ∈
      [transformRow t150.header pts0 pnum150 0 0 row150] ∧
    List.lookup "country_code" (transformRow t150.header pts0 pnum150 0 0 row150) =
      some (BQValue.vstr (coerceCountry (cellVal t150.header row150 "country"))) ∧
    (coerceCountry (cellVal t150.header row150 "country") = "MY" ∨
     coerceCountry (cellVal t150.header row150 "country") = "SG" ∨
     coerceCountry (cellVal t150.header row150 "country") = "TH" ∨
     coerceCountry (cellVal t150.header row150 "country") = "ID" ∨
     coerceCountry (cellVal t150.header row150 "country") = "OT") ∧
    coerceCountry (cellVal t150.header row150 "country") ≠ "" ∧
    (coerceCountry (cellVal t150.header row150 "country") =
        astype_str (cellVal t150.header row150 "country") →
      astype_str (cellVal t150.header row150 "country") = "OT")) :=
  ⟨by decide,
   country_code_fixed_set t150 pts0 pnum150 0 0
     [transformRow t150.header pts0 pnum150 0 0 row150] row150 rfl (by decide)⟩

/-- C3 counterexample: an event with an empty object key does not fail
with a validation error; because the extension filter runs first and the
empty key does not end in ".csv", the invocation is a successful no-op. -/
theorem empty_key_event_skipped_not_validation :
    (process_gcs_csv_to_bq store0 parseCsv0 pts0 pnum0 0 0 [] ⟨"bkt", ""⟩).outcome =
      Outcome.skipped ∧
    (process_gcs_csv_to_bq store0 parseCsv0 pts0 pnum0 0 0 [] ⟨"bkt", ""⟩).outcome ≠
      Outcome.failure FnError.validationError := ⟨rfl, by decide⟩

/-- C3 (amended): for every event whose object key DOES end in ".csv"
(case-insensitively) and whose container name or object key is empty, the
invocation fails with a validation error; an event with an empty container
or key whose key does not end in ".csv" is instead a successful no-op,
because the source checks the extension before validating the fields. -/
theorem csv_event_empty_fields_validation_error
    (store : String → String → Option String)
    (parseCsv : String → Except Unit RawTable)
    (pts : String → Option ℤ) (pnum : String → Option ℚ)
    (nowFill nowNaive : ℤ) (warehouse : List OutRow) (ev : Event)
    (hcsv : str_ends_with (str_lower ev.name) ".csv" = true)
    (hempty : ev.bucket = "" ∨ ev.name = "") :
    process_gcs_csv_to_bq store parseCsv pts pnum nowFill nowNaive warehouse ev =
      ⟨Outcome.failure FnError.validationError, warehouse, []⟩ := by
  rcases hempty with h | h
  · simp [process_gcs_csv_to_bq, hcsv, h]
  · rw [h] at hcsv
    exact absurd hcsv (by decide)

/-- Witness for C3 at a concrete event with empty container and a ".csv"
key. -/
theorem csv_event_empty_fields_validation_error_witness :
    str_ends_with (str_lower "a.csv") ".csv" = true ∧
    process_gcs_csv_to_bq store0 parseCsv0 pts0 pnum0 0 0 [] ⟨"", "a.csv"⟩ =
      ⟨Outcome.failure FnError.validationError, [], []⟩ :=
  ⟨by decide,
   csv_event_empty_fields_validation_error store0 parseCsv0 pts0 pnum0 0 0 []
     ⟨"", "a.csv"⟩ (by decide) (Or.inl rfl)⟩

/-- C4: for every row of the output table, event_timestamp is the parsed
raw timestamp, is timezone-aware UTC, unparseable or missing raw values
are replaced with the wall-clock fill reading taken during the invocation,
and (given that the clock is monotone, so the fill reading is at least the
invocation start) replaced values are no older than invocation start. -/
theorem event_timestamp_always_utc_aware (t : RawTable)
    (pts : String → Option ℤ) (pnum : String → Option ℚ)
    (nowFill nowNaive start : ℤ) (out : List OutRow) (row : List (Option String))
    (htr : transform t pts pnum nowFill nowNaive = Except.ok out)
    (hrow : row ∈ t.rows)
    (hclock : start ≤ nowFill) :
    transformRow t.header pts pnum nowFill nowNaive row ∈ out ∧
    List.lookup "event_timestamp" (transformRow t.header pts pnum nowFill nowNaive row) =
      some (BQValue.vts (coerceTimestamp pts nowFill (cellVal t.header row "event_timestamp")) true) ∧
    coerceTimestamp pts nowFill (cellVal t.header row "event_timestamp") =
      ((cellVal t.header row "event_timestamp").bind pts).getD nowFill ∧
    ((cellVal t.header row "event_timestamp").bind pts = none →
      coerceTimestamp pts nowFill (cellVal t.header row "event_timestamp") = nowFill ∧
      start ≤ coerceTimestamp pts nowFill (cellVal t.header row "event_timestamp")) := by
  refine ⟨transform_mem_out t pts pnum nowFill nowNaive out row htr hrow,
    transformRow_lookup_ts t.header pts pnum nowFill nowNaive row,
    coerceTimestamp_eq_bind pts nowFill (cellVal t.header row "event_timestamp"), ?_⟩
  intro h
  rw [coerceTimestamp_eq_bind pts nowFill (cellVal t.header row "event_timestamp"), h]
  exact ⟨rfl, hclock⟩

/-- Witness for C4 at a concrete table whose timestamp cell is the
unparseable string "not-a-date". -/
theorem event_timestamp_always_utc_aware_witness :
    row150 ∈ t150.rows ∧ (5 : ℤ) ≤ 7 ∧
    (transformRow t150.header pts0 pnum150 7 0 row150 ∈
      [transformRow t150.header pts0 pnum150 7 0 row150] ∧
    List.lookup "event_timestamp" (transformRow t150.header pts0 pnum150 7 0 row150) =
      some (BQValue.vts (coerceTimestamp pts0 7 (cellVal t150.header row150 "event_timestamp")) true) ∧
    coerceTimestamp pts0 7 (cellVal t150.header row150 "event_timestamp") =
      ((cellVal t150.header row150 "event_timestamp").bind pts0).getD 7 ∧
    ((cellVal t150.header row150 "event_timestamp").bind pts0 = none →
      coerceTimestamp pts0 7 (cellVal t150.header row150 "event_timestamp") = 7 ∧
      (5 : ℤ) ≤ coerceTimestamp pts0 7 (cellVal t150.header row150 "event_timestamp"))) :=
  ⟨by decide, by decide,
   event_timestamp_always_utc_aware t150 pts0 pnum150 7 0 5
     [transformRow t150.header pts0 pnum150 7 0 row150] row150 rfl (by decide) (by decide)⟩

/-- C5: within a single invocation every output row carries the same
processing_datetime, namely the single naive wall-clock reading taken
once during the transformation (the awareness flag is false). -/
theorem processing_datetime_uniform (t : RawTable)
    (pts : String → Option ℤ) (pnum : String → Option ℚ)
    (nowFill nowNaive : ℤ) (out : List OutRow) (r1 r2 : OutRow)
    (htr : transform t pts pnum nowFill nowNaive = Except.ok out)
    (h1 : r1 ∈ out) (h2 : r2 ∈ out) :
    List.lookup "processing_datetime" r1 = some (BQValue.vts nowNaive false) ∧
    List.lookup "processing_datetime" r1 = List.lookup "processing_datetime" r2 := by
  rw [transform_ok_eq t pts pnum nowFill nowNaive out htr] at h1 h2
  rcases List.mem_map.mp h1 with ⟨row1, _, hr1⟩
  rcases List.mem_map.mp h2 with ⟨row2, _, hr2⟩
  rw [← hr1, ← hr2]
  exact ⟨transformRow_lookup_processing t.header pts pnum nowFill nowNaive row1,
    by rw [transformRow_lookup_processing, transformRow_lookup_processing]⟩

/-- Witness for C5 at a concrete two-row table. -/
theorem processing_datetime_uniform_witness :
    transformRow hdr0 pts0 pnum150 0 9 row150 ∈
      (RawTable.mk hdr0 [row150, rowOT]).rows.map (transformRow hdr0 pts0 pnum150 0 9) ∧
    transformRow hdr0 pts0 pnum150 0 9 rowOT ∈
      (RawTable.mk hdr0 [row150, rowOT]).rows.map (transformRow hdr0 pts0 pnum150 0 9) ∧
    (List.lookup "processing_datetime" (transformRow hdr0 pts0 pnum150 0 9 row150) =
      some (BQValue.vts 9 false) ∧
    List.lookup "processing_datetime" (transformRow hdr0 pts0 pnum150 0 9 row150) =
      List.lookup "processing_datetime" (transformRow hdr0 pts0 pnum150 0 9 rowOT)) :=
  ⟨by decide, by decide,
   processing_datetime_uniform (RawTable.mk hdr0 [row150, rowOT]) pts0 pnum150 0 9
     ((RawTable.mk hdr0 [row150, rowOT]).rows.map (transformRow hdr0 pts0 pnum150 0 9))
     (transformRow hdr0 pts0 pnum150 0 9 row150)
     (transformRow hdr0 pts0 pnum150 0 9 rowOT) rfl (by decide) (by decide)⟩

/-- C6 counterexample: a row whose user_id cell is missing (empty CSV
field, a pandas NaN) passes through the transform and yields an output row
whose user_id value is missing — the source fills gaps in the derived
columns but never fills user_id, refuting the claim that no column of the
output has missing values. -/
theorem transform_missing_user_id_propagates :
    transform tNoUid pts0 pnum150 0 0 =
      Except.ok [transformRow tNoUid.header pts0 pnum150 0 0 rowNoUid] ∧
    List.lookup "user_id" (transformRow tNoUid.header pts0 pnum150 0 0 rowNoUid) =
      some BQValue.na := ⟨rfl, rfl⟩

/-- C6 (amended): every row of the TargetTable has exactly the six target
columns, in the fixed order, and any other input column is dropped; the
five derived columns (event_timestamp, country_code, value, is_high_value,
processing_datetime) never hold a missing value; user_id is passed through
unchanged, so it is missing in the output exactly when the user_id cell of
the corresponding input row is missing. -/
theorem target_schema_six_columns (t : RawTable)
    (pts : String → Option ℤ) (pnum : String → Option ℚ)
    (nowFill nowNaive : ℤ) (out : List OutRow) (row : List (Option String))
    (htr : transform t pts pnum nowFill nowNaive = Except.ok out)
    (hrow : row ∈ t.rows) :
    transformRow t.header pts pnum nowFill nowNaive row ∈ out ∧
    List.map Prod.fst (transformRow t.header pts pnum nowFill nowNaive row) =
      targetColumns ∧
    BQValue.na ∉
      List.map Prod.snd (List.tail (transformRow t.header pts pnum nowFill nowNaive row)) ∧
    (List.lookup "user_id" (transformRow t.header pts pnum nowFill nowNaive row) =
        some BQValue.na ↔ cellVal t.header row "user_id" = none) := by
  refine ⟨transform_mem_out t pts pnum nowFill nowNaive out row htr hrow, rfl, ?_, ?_⟩
  · simp [transformRow]
  · rcases h : cellVal t.header row "user_id" with _ | s <;>
      simp [transformRow, List.lookup, h]

/-- Witness for C6 at a concrete table whose user_id is present. -/
theorem target_schema_six_columns_witness :
    row150 ∈ t150.rows ∧
    (transformRow t150.header pts0 pnum150 0 0 row150 ∈
      [transformRow t150.header pts0 pnum150 0 0 row150] ∧
    List.map Prod.fst (transformRow t150.header pts0 pnum150 0 0 row150) =
      targetColumns ∧
    BQValue.na ∉
      List.map Prod.snd (List.tail (transformRow t150.header pts0 pnum150 0 0 row150)) ∧
    (List.lookup "user_id" (transformRow t150.header pts0 pnum150 0 0 row150) =
        some BQValue.na ↔ cellVal t150.header row150 "user_id" = none)) :=
  ⟨by decide,
   target_schema_six_columns t150 pts0 pnum150 0 0
     [transformRow t150.header pts0 pnum150 0 0 row150] row150 rfl (by decide)⟩

/-- C7: the transform step is deterministic — two runs on equal RawTables
with equal clock readings (and the same parsing collaborators) produce
equal outputs. -/
theorem transform_deterministic (t1 t2 : RawTable)
    (pts : String → Option ℤ) (pnum : String → Option ℚ)
    (nowFill1 nowFill2 nowNaive1 nowNaive2 : ℤ)
    (ht : t1 = t2) (hnf : nowFill1 = nowFill2) (hnn : nowNaive1 = nowNaive2) :
    transform t1 pts pnum nowFill1 nowNaive1 =
      transform t2 pts pnum nowFill2 nowNaive2 := by
  subst ht
  subst hnf
  subst hnn
  rfl

/-- Witness for C7 at a concrete table and clock instant. -/
theorem transform_deterministic_witness :
    t150 = t150 ∧ (3 : ℤ) = 3 ∧ (4 : ℤ) = 4 ∧
    transform t150 pts0 pnum150 3 4 = transform t150 pts0 pnum150 3 4 :=
  ⟨rfl, rfl, rfl,
   transform_deterministic t150 t150 pts0 pnum150 3 3 4 4 rfl rfl rfl⟩

/-- C8: for every event whose object key does not end in ".csv"
(case-insensitively), the invocation ends successfully with no further
action: no fetch, no transform, no load, the warehouse table unchanged,
and outcome skipped rather than an error. -/
theorem noncsv_event_noop (store : String → String → Option String)
    (parseCsv : String → Except Unit RawTable)
    (pts : String → Option ℤ) (pnum : String → Option ℚ)
    (nowFill nowNaive : ℤ) (warehouse : List OutRow) (ev : Event)
    (h : str_ends_with (str_lower ev.name) ".csv" = false) :
    process_gcs_csv_to_bq store parseCsv pts pnum nowFill nowNaive warehouse ev =
      ⟨Outcome.skipped, warehouse, []⟩ := by
  simp [process_gcs_csv_to_bq, h]

/-- Witness for C8 at a concrete non-CSV event. -/
theorem noncsv_event_noop_witness :
    str_ends_with (str_lower "data.txt") ".csv" = false ∧
    process_gcs_csv_to_bq store0 parseCsv0 pts0 pnum0 0 0 [] ⟨"bkt", "data.txt"⟩ =
      ⟨Outcome.skipped, [], []⟩ :=
  ⟨by decide,
   noncsv_event_noop store0 parseCsv0 pts0 pnum0 0 0 [] ⟨"bkt", "data.txt"⟩ (by decide)⟩

/-- C9: the load submitted by the sink loader (write disposition
WRITE_APPEND) is append-only — the warehouse table after the load is the
old table followed by the new rows, so every row present before the load
is still present, unmodified and in its original position, afterwards.
Blocking until completion is the `job.result()` call, modelled by
`load_table_from_dataframe` returning only the completed table state. -/
theorem load_append_preserves_existing_rows (table rows : List OutRow) :
    load_table_from_dataframe table rows = table ++ rows ∧
    List.take table.length (load_table_from_dataframe table rows) = table := by
  constructor
  · rfl
  · show List.take table.length (table ++ rows) = table
    simp

/-- C10: the transform preserves the number and order of rows — whenever
all four expected columns are present, the output is exactly the
independent per-row map of `transformRow` over the input rows (one output
row per input row, in the same order, each derived solely from the
corresponding input row), and the row count is preserved. -/
theorem transform_preserves_row_count_and_order (t : RawTable)
    (pts : String → Option ℤ) (pnum : String → Option ℚ)
    (nowFill nowNaive : ℤ)
    (h : (t.header.contains "user_id" && t.header.contains "event_timestamp"
          && t.header.contains "country" && t.header.contains "value") = true) :
    transform t pts pnum nowFill nowNaive =
      Except.ok (t.rows.map (transformRow t.header pts pnum nowFill nowNaive)) ∧
    (t.rows.map (transformRow t.header pts pnum nowFill nowNaive)).length =
      t.rows.length := by
  constructor
  · unfold transform
    simp only [h]
    rfl
  · exact List.length_map t.rows (transformRow t.header pts pnum nowFill nowNaive)

/-- Witness for C10 at a concrete two-row table. -/
theorem transform_preserves_row_count_and_order_witness :
    ((hdr0.contains "user_id" && hdr0.contains "event_timestamp"
      && hdr0.contains "country" && hdr0.contains "value") = true) ∧
    (transform (RawTable.mk hdr0 [row150, rowOT]) pts0 pnum150 0 0 =
      Except.ok ((RawTable.mk hdr0 [row150, rowOT]).rows.map
        (transformRow (RawTable.mk hdr0 [row150, rowOT]).header pts0 pnum150 0 0)) ∧
    ((RawTable.mk hdr0 [row150, rowOT]).rows.map
        (transformRow (RawTable.mk hdr0 [row150, rowOT]).header pts0 pnum150 0 0)).length =
      (RawTable.mk hdr0 [row150, rowOT]).rows.length) :=
  ⟨by decide,
   transform_preserves_row_count_and_order (RawTable.mk hdr0 [row150, rowOT])
     pts0 pnum150 0 0 (by decide)⟩
